import Mathlib

/-!
Shallow embedding of `src/kats/models/holtwinters.py` (the Kats Holt-Winters
model wrapper) and proofs about its orchestration contract.

Modelling conventions:
* timestamps are natural numbers measured in days, so the pandas daily
  frequency `"D"` is the step `1`;
* forecast values are integers (their numeric content is irrelevant to the
  orchestration layer: the statsmodels solver is a black box);
* Python exceptions are `Except String`, carrying the exact message raised;
* the external solver (`statsmodels.tsa.holtwinters.ExponentialSmoothing`)
  and the empirical-confidence-interval estimator are black boxes passed in
  as function arguments (`solve`, `eciImpl`).
-/

set_option autoImplicit false

/-- The five values accepted for `trend` and for `seasonal` in
`HoltWintersParams.validate_params`:
`["add", "mul", "additive", "multiplicative", None]`. -/
def allowedComponentValues : List (Option String) :=
  [some "add", some "mul", some "additive", some "multiplicative", none]

/-- The fields of `HoltWintersParams` (`__slots__` of the Python class). -/
structure HoltWintersParams where
  trend : Option String
  damped : Bool
  seasonal : Option String
  seasonal_periods : Option Nat
deriving DecidableEq

/-- Exact message raised for an invalid `trend` (the Python source uses a
line continuation inside the string literal, so the message contains the 25
spaces of the continuation line's indentation). -/
def trendErrorMsg : String :=
  "trend parameter is not valid!                         use \x27add\x27 or \x27mul\x27 instead!"

/-- Exact message raised for an invalid `seasonal` value. -/
def seasonalErrorMsg : String :=
  "seasonal parameter is not valid!                         use \x27add\x27 or \x27mul\x27 instead!"

/-- `HoltWintersParams.validate_params`: `trend` is checked first, then
`seasonal`; each must be one of the five allowed values. -/
def HoltWintersParams.validate_params (p : HoltWintersParams) : Except String Unit :=
  if p.trend ∉ allowedComponentValues then .error trendErrorMsg
  else if p.seasonal ∉ allowedComponentValues then .error seasonalErrorMsg
  else .ok ()

/-- `HoltWintersParams.__init__`: stores the four fields and runs
`validate_params`; on a validation error the exception propagates and no
object is produced. -/
def mkHoltWintersParams (trend : Option String) (damped : Bool)
    (seasonal : Option String) (seasonal_periods : Option Nat) :
    Except String HoltWintersParams :=
  let p : HoltWintersParams := ⟨trend, damped, seasonal, seasonal_periods⟩
  match p.validate_params with
  | .error e => .error e
  | .ok _ => .ok p

/-- Modelled from the spec: `kats.consts.TimeSeriesData`'s value column is not
under `src/`. The spec describes it as either a single numeric sequence (a
pandas `Series`, the univariate case) or a table of several columns (a pandas
`DataFrame`, the multivariate case). -/
inductive TSValue where
  | series (vals : List Int)
  | frame (cols : List (List Int))
deriving DecidableEq

/-- Rendering of Python's `type(value)` for the two value shapes, as it is
interpolated into the construction-time error message. -/
def TSValue.pythonTypeName : TSValue → String
  | .series _ => "<class \x27pandas.core.series.Series\x27>"
  | .frame _ => "<class \x27pandas.core.frame.DataFrame\x27>"

/-- Modelled from the spec: `kats.consts.TimeSeriesData` is not under `src/`.
A time series is an ordered sequence of (timestamp, value) pairs; `time` and
`value` are stored as pandas Series with positional (range) indices. -/
structure TimeSeriesData where
  time : List Nat
  value : TSValue
deriving DecidableEq

/-- Modelled from the spec: `len(TimeSeriesData)` is the number of
observations. -/
def TimeSeriesData.len (d : TimeSeriesData) : Nat := d.time.length

/-- Abstraction of a statsmodels `HoltWintersResults` handle: `fcstAt k` is
the (k+1)-step-ahead out-of-sample forecast and `fittedAt i` the prediction
at positional index `i` (in-sample for `i < N`, forecast beyond). -/
structure HoltWintersResults where
  fcstAt : Nat → Int
  fittedAt : Nat → Int

/-- statsmodels `HoltWintersResults.forecast(steps)`: the next `steps`
out-of-sample values. -/
def HoltWintersResults.forecast (m : HoltWintersResults) (steps : Nat) : List Int :=
  (List.range steps).map m.fcstAt

/-- statsmodels `HoltWintersResults.predict(start, end)`: predictions for the
zero-based positions `start` through `stop` INCLUSIVE (`stop - start + 1`
values); positions at or past the sample length are out-of-sample forecasts. -/
def HoltWintersResults.predictRange (m : HoltWintersResults) (start stop : Nat) : List Int :=
  (List.range (stop + 1 - start)).map (fun i => m.fittedAt (start + i))

/-- pandas `Series.max()` over the (nonnegative) timestamps. -/
def maxTime (times : List Nat) : Nat := times.foldl max 0

/-- Consecutive differences of a timestamp list, as integers. -/
def timeDiffs : List Nat → List Int
  | a :: b :: rest => ((b : Int) - (a : Int)) :: timeDiffs (b :: rest)
  | _ => []

/-- pandas `infer_freq`: raises `ValueError` on fewer than 3 timestamps;
returns the common spacing when the timestamps are evenly spaced with a
positive step, `None` otherwise. -/
def inferFreq (times : List Nat) : Except String (Option Nat) :=
  if times.length < 3 then
    .error "Need at least 3 dates to infer frequency"
  else
    match timeDiffs times with
    | [] => .ok none
    | d :: ds =>
      if 0 < d ∧ ds.all (fun x => x = d) then .ok (some d.toNat) else .ok none

/-- `kwargs.get("freq", pd.infer_freq(self.data.time))`: Python evaluates the
fallback eagerly, so an inference failure raises even when an explicit `freq`
was supplied; otherwise the explicit value wins and the (possibly `None`)
inferred value is the fallback. -/
def resolvedFreq (argFreq : Option Nat) (times : List Nat) : Except String (Option Nat) :=
  match inferFreq times with
  | .error e => .error e
  | .ok inferred =>
    .ok (match argFreq with
         | some f => some f
         | none => inferred)

/-- pandas's daily default frequency `"D"`, in day units. -/
def dailyFreq : Nat := 1

/-- pandas `date_range(start=start, periods=periods, freq=freq)`: `periods`
evenly spaced timestamps beginning at `start`; with `freq=None` (and `end`
absent) pandas falls back to the daily frequency. -/
def dateRange (start : Nat) (periods : Nat) (freq : Option Nat) : List Nat :=
  (List.range periods).map (fun i => start + i * freq.getD dailyFreq)

/-- One row of the assembled forecast table: a timestamp (possibly missing,
pandas `NaT`) and the point forecast. Confidence bounds are attached by the
external CI estimator and play no role in the claims, so they are omitted. -/
structure Row where
  time : Option Nat
  fcst : Int
deriving DecidableEq

/-- A forecast table is an ordered list of rows. -/
abbrev DataFrame := List Row

/-- pandas `DataFrame({"time": times, "fcst": vals})` where both columns are
Series carrying positional range indices of different lengths: the frame is
built on the union of the indices. `predict` only reaches this with
`vals` one longer than `times` (statsmodels' inclusive `end`), so the only
hole is a missing `time` (pandas `NaT`, here `none`). -/
def alignFrame (times : List Nat) (vals : List Int) : DataFrame :=
  (List.range vals.length).map (fun i => Row.mk times[i]? (vals.getD i 0))

/-- pandas `DataFrame({"time": dates, "fcst": fcst})` with `dates` a
`DatetimeIndex` (array-like) and `fcst` a Series: the lengths must agree and
the pairing is positional. -/
def mkTimeFcstFrame (dates : List Nat) (vals : List Int) : Except String DataFrame :=
  if dates.length = vals.length then
    .ok (List.zipWith (fun d v => Row.mk (some d) v) dates vals)
  else
    .error "array length does not match index length"

/-- Modelled from the spec: `kats.utils.emp_confidence_int.EmpConfidenceInt`
is not under `src/`. Only its constructor arguments matter here — they are
exactly the values the call site in `predict` passes; the estimation itself
(`get_eci`) is the external collaborator, supplied to `predict` as a
function argument. -/
structure EmpConfidenceInt where
  error_methods : List String
  data : TimeSeriesData
  params : HoltWintersParams
  train_percentage : Nat
  test_percentage : Nat
  sliding_steps : Nat
  model_class : String
  confidence_level : ℚ
  multi : Bool
deriving DecidableEq

/-- The keyword arguments `predict` reads out of `**kwargs`; `none` means
the caller did not supply the keyword. -/
structure PredictArgs where
  freq : Option Nat := none
  alpha : Option ℚ := none
  error_methods : Option (List String) := none
  train_percentage : Option Nat := none
  test_percentage : Option Nat := none
  sliding_steps : Option Nat := none
  multi : Option Bool := none

/-- The instance state of `HoltWintersModel`: the stored series and
parameters, the fitted handle (`None` before `fit`), and the cached derived
state (class-level defaults before the first `predict`). -/
structure HoltWintersModelState where
  data : TimeSeriesData
  params : HoltWintersParams
  model : Option HoltWintersResults := none
  freq : Option Nat := none
  dates : Option (List Nat) := none
  include_history : Bool := false
  alpha : Option ℚ := none
  y_fcst : Option (List Int) := none
  fcst_df : Option DataFrame := none

/-- Exact message of the construction-time shape check
(`"Only support univariate time series, but get {type}."`). -/
def univariateErrorMsg (v : TSValue) : String :=
  "Only support univariate time series, but get " ++ v.pythonTypeName ++ "."

/-- `HoltWintersModel.__init__`: stores the series and parameters, then
rejects any value column that is not a single pandas Series. -/
def mkHoltWintersModel (data : TimeSeriesData) (params : HoltWintersParams) :
    Except String HoltWintersModelState :=
  match data.value with
  | .series _ => .ok { data := data, params := params }
  | .frame _ => .error (univariateErrorMsg data.value)

/-- `HoltWintersModel.fit`: builds the external solver from the stored value
column and the four configuration fields and stores the fitted handle,
unconditionally replacing any previous one. `solve` is the black-box
statsmodels optimiser (deterministic: a pure function). -/
def HoltWintersModelFit
    (solve : TSValue → HoltWintersParams → HoltWintersResults)
    (s : HoltWintersModelState) : HoltWintersModelState :=
  { s with model := some (solve s.data.value s.params) }

/-- Exact message of the `predict`-before-`fit` guard. -/
def sequencingErrorMsg : String := "Call fit() before predict()"

/-- The `EmpConfidenceInt` the CI path of `predict` constructs: configured
error metrics (default `["mape"]`), the stored series and parameters, the
split percentages (defaults 70 and 10), the sliding step count (default
`len(self.data) // 5`), the orchestrator's own class, confidence level
`1 - alpha`, and `multi=False` hard-coded at the call site. -/
def eciOf (s : HoltWintersModelState) (args : PredictArgs) (alpha : ℚ) : EmpConfidenceInt :=
  { error_methods := args.error_methods.getD ["mape"],
    data := s.data,
    params := s.params,
    train_percentage := args.train_percentage.getD 70,
    test_percentage := args.test_percentage.getD 10,
    sliding_steps := args.sliding_steps.getD (s.data.len / 5),
    model_class := "HoltWintersModel",
    confidence_level := 1 - alpha,
    multi := false }

/-- `HoltWintersModel.predict`. Mirrors the source line by line: the
fitted-handle guard; frequency resolution (`kwargs.get` with the eagerly
evaluated `pd.infer_freq` fallback); the `steps+1`-period date range starting
at the last observed timestamp with the entries equal to that timestamp
filtered out; then either the direct solver forecast paired with those dates,
or the table returned by the CI estimator built via `eciOf`; finally the
optional prepending of `model.predict(start=0, end=len(self.data.time))`
aligned against the original timestamps, and the cache updates. Returns the
new instance state together with the returned table. -/
def HoltWintersModelPredict
    (eciImpl : EmpConfidenceInt → Nat → DataFrame)
    (s : HoltWintersModelState) (steps : Nat) (include_history : Bool)
    (args : PredictArgs) : Except String (HoltWintersModelState × DataFrame) :=
  match s.model with
  | none => .error sequencingErrorMsg
  | some model =>
    match resolvedFreq args.freq s.data.time with
    | .error e => .error e
    | .ok rf =>
      let last_date := maxTime s.data.time
      let dates := (dateRange last_date (steps + 1) rf).filter (fun d => d ≠ last_date)
      match args.alpha with
      | some alpha =>
        let fcst := eciImpl (eciOf s args alpha) steps
        let fcst_df :=
          if include_history then
            alignFrame s.data.time (model.predictRange 0 s.data.time.length) ++ fcst
          else fcst
        .ok ({ s with
               freq := rf
               dates := some dates
               include_history := include_history
               alpha := some alpha
               y_fcst := some (fcst.map Row.fcst)
               fcst_df := some fcst_df },
             fcst_df)
      | none =>
        let vals := model.forecast steps
        match mkTimeFcstFrame dates vals with
        | .error e => .error e
        | .ok fcst =>
          let fcst_df :=
            if include_history then
              alignFrame s.data.time (model.predictRange 0 s.data.time.length) ++ fcst
            else fcst
          .ok ({ s with
                 freq := rf
                 dates := some dates
                 include_history := include_history
                 y_fcst := some vals
                 fcst_df := some fcst_df },
               fcst_df)

/-- One public operation on an orchestrator instance. -/
inductive ModelOp where
  | fitOp : ModelOp
  | predictOp (steps : Nat) (include_history : Bool) (args : PredictArgs) : ModelOp

/-- Apply one operation to the instance state; a `predict` that raises leaves
the state as the embedding received it. -/
def stepOp (solve : TSValue → HoltWintersParams → HoltWintersResults)
    (eciImpl : EmpConfidenceInt → Nat → DataFrame)
    (s : HoltWintersModelState) : ModelOp → HoltWintersModelState
  | .fitOp => HoltWintersModelFit solve s
  | .predictOp steps ih args =>
    match HoltWintersModelPredict eciImpl s steps ih args with
    | .ok (s2, _) => s2
    | .error _ => s

/-- Run a sequence of `fit`/`predict` calls on an instance. -/
def runOps (solve : TSValue → HoltWintersParams → HoltWintersResults)
    (eciImpl : EmpConfidenceInt → Nat → DataFrame)
    (s : HoltWintersModelState) : List ModelOp → HoltWintersModelState
  | [] => s
  | op :: ops => runOps solve eciImpl (stepOp solve eciImpl s op) ops

/-! Concrete instances used by the witnesses and counterexamples. -/

/-- A daily univariate series with three observations at days 0, 1, 2. -/
def exData : TimeSeriesData := ⟨[0, 1, 2], .series [10, 12, 14]⟩

/-- The default parameter object (`trend="add"`, rest default). -/
def exParams : HoltWintersParams := ⟨some "add", false, none, none⟩

/-- A concrete deterministic solver handle. -/
def exHandle : HoltWintersResults := ⟨fun k => (k : Int) + 100, fun i => (i : Int) * 2⟩

/-- A freshly constructed (unfitted) orchestrator over `exData`. -/
def exUnfitted : HoltWintersModelState := { data := exData, params := exParams }

/-- The same orchestrator after a successful `fit`. -/
def exFitted : HoltWintersModelState := { exUnfitted with model := some exHandle }

/-- A concrete stand-in for the external CI estimator. -/
def dummyEci : EmpConfidenceInt → Nat → DataFrame :=
  fun _ n => (List.range n).map (fun i => Row.mk (some i) 7)

/-- A two-column (multivariate) input series. -/
def exMultiData : TimeSeriesData := ⟨[0, 1], .frame [[1, 2], [3, 4]]⟩

/-- Predict keyword arguments requesting a confidence interval. -/
def argsAlpha : PredictArgs := { alpha := some (1/20) }

/-! Helper lemmas about the list plumbing. -/

theorem range_map_getElem? {α : Type} (l : List α) :
    (List.range l.length).map (fun i => l[i]?) = l.map some := by
  induction l with
  | nil => rfl
  | cons a t ih =>
    rw [List.length_cons, List.range_succ_eq_map, List.map_cons, List.map_map]
    simp only [List.getElem?_cons_zero, List.map_cons]
    congr 1
    rw [← ih]
    apply List.map_congr_left
    intro i _
    simp [Function.comp, List.getElem?_cons_succ]

theorem zipWith_range_map {α β γ : Type} (f : α → β → γ) (g : Nat → α) (h : Nat → β) (n : Nat) :
    List.zipWith f ((List.range n).map g) ((List.range n).map h) =
      (List.range n).map (fun i => f (g i) (h i)) := by
  induction n with
  | zero => rfl
  | succ m ih =>
    rw [List.range_succ, List.map_append, List.map_append, List.map_append]
    rw [List.zipWith_append _ _ _ _ _ (by simp)]
    rw [ih]
    rfl

theorem filter_dateRange (start steps : Nat) (rf : Option Nat)
    (hf : 0 < rf.getD dailyFreq) :
    (dateRange start (steps + 1) rf).filter (fun d => d ≠ start) =
      (List.range steps).map (fun i => start + (i + 1) * rf.getD dailyFreq) := by
  unfold dateRange
  rw [List.range_succ_eq_map, List.map_cons, List.map_map]
  rw [List.filter_cons_of_neg (by simp)]
  rw [List.filter_eq_self.mpr]
  · apply List.map_congr_left
    intro i _
    simp [Function.comp, Nat.succ_eq_add_one]
  · intro a ha
    simp only [List.mem_map, List.mem_range, Function.comp] at ha
    obtain ⟨i, hi, rfl⟩ := ha
    have hpos : 0 < (i + 1) * rf.getD dailyFreq := Nat.mul_pos (Nat.succ_pos i) hf
    simp only [ne_eq, decide_eq_true_eq, Nat.succ_eq_add_one]
    omega

theorem predictRange_zero (m : HoltWintersResults) (n : Nat) :
    m.predictRange 0 n = (List.range (n + 1)).map m.fittedAt := by
  unfold HoltWintersResults.predictRange
  simp [Nat.zero_add]

theorem alignFrame_range_map (times : List Nat) (g : Nat → Int) :
    alignFrame times ((List.range (times.length + 1)).map g) =
      ((List.range times.length).map (fun i => Row.mk times[i]? (g i)))
        ++ [Row.mk none (g times.length)] := by
  unfold alignFrame
  rw [List.length_map, List.length_range]
  have hval : ∀ i, i < times.length + 1 →
      (((List.range (times.length + 1)).map g).getD i 0) = g i := by
    intro i hi
    simp [List.getD, List.getElem?_map, List.getElem?_range, hi]
  have hstep : (List.range (times.length + 1)).map
      (fun i => Row.mk times[i]? (((List.range (times.length + 1)).map g).getD i 0)) =
      (List.range (times.length + 1)).map (fun i => Row.mk times[i]? (g i)) := by
    apply List.map_congr_left
    intro i hi
    rw [List.mem_range] at hi
    rw [hval i hi]
  rw [hstep, List.range_succ, List.map_append]
  simp only [List.map_cons, List.map_nil]
  rw [List.getElem?_eq_none (Nat.le_refl _)]

/-- Inversion of a successful `predict`: the stored series, parameters and
fitted handle are untouched; the cached frequency, date range, forecast table
and `include_history` flag are overwritten with freshly computed values; the
cached confidence level is overwritten exactly when `alpha` was supplied. -/
theorem HoltWintersModelPredict_ok_inv
    (eciImpl : EmpConfidenceInt → Nat → DataFrame)
    (s s2 : HoltWintersModelState) (steps : Nat) (ih : Bool) (args : PredictArgs)
    (df : DataFrame)
    (h : HoltWintersModelPredict eciImpl s steps ih args = .ok (s2, df)) :
    s2.data = s.data ∧ s2.params = s.params ∧ s2.model = s.model ∧
    s2.fcst_df = some df ∧ s2.include_history = ih ∧
    (∃ rf, resolvedFreq args.freq s.data.time = .ok rf ∧ s2.freq = rf ∧
      s2.dates = some ((dateRange (maxTime s.data.time) (steps + 1) rf).filter
        (fun d => d ≠ maxTime s.data.time))) ∧
    s2.alpha = (match args.alpha with | some a => some a | none => s.alpha) := by
  simp only [HoltWintersModelPredict] at h
  split at h
  · exact Except.noConfusion h
  next model hm =>
    split at h
    · exact Except.noConfusion h
    next rf hrf =>
      split at h
      next alpha halpha =>
        simp only [Except.ok.injEq, Prod.mk.injEq] at h
        obtain ⟨h1, h2⟩ := h
        subst h1
        subst h2
        exact ⟨rfl, rfl, rfl, rfl, rfl, ⟨rf, hrf, rfl, rfl⟩, rfl⟩
      next halpha =>
        split at h
        · exact Except.noConfusion h
        next fcst hfcst =>
          simp only [Except.ok.injEq, Prod.mk.injEq] at h
          obtain ⟨h1, h2⟩ := h
          subst h1
          subst h2
          exact ⟨rfl, rfl, rfl, rfl, rfl, ⟨rf, hrf, rfl, rfl⟩, rfl⟩

/-- A `stepOp` never changes the stored series or parameter object. -/
theorem stepOp_data_params (solve : TSValue → HoltWintersParams → HoltWintersResults)
    (eciImpl : EmpConfidenceInt → Nat → DataFrame)
    (s : HoltWintersModelState) (op : ModelOp) :
    (stepOp solve eciImpl s op).data = s.data ∧
    (stepOp solve eciImpl s op).params = s.params := by
  cases op with
  | fitOp => exact ⟨rfl, rfl⟩
  | predictOp steps ih args =>
    cases hp : HoltWintersModelPredict eciImpl s steps ih args with
    | error e =>
      simp only [stepOp, hp]
      trivial
    | ok p =>
      obtain ⟨s2, df⟩ := p
      have hinv := HoltWintersModelPredict_ok_inv eciImpl s s2 steps ih args df hp
      simp only [stepOp, hp]
      exact ⟨hinv.1, hinv.2.1⟩

/-- C1: constructing `HoltWintersParams` raises the configuration error
naming `trend` whenever `trend` is outside the five-value allowed set, and
the one naming `seasonal` whenever `trend` is allowed but `seasonal` is not;
no partial object is produced in either case. For every choice of `trend`
and `seasonal` from the five allowed values (and any `damped`,
`seasonal_periods`), construction succeeds with exactly the given fields. -/
theorem holtwinters_c1_param_validation (trend seasonal : Option String)
    (damped : Bool) (sp : Option Nat) :
    (trend ∈ allowedComponentValues → seasonal ∈ allowedComponentValues →
      mkHoltWintersParams trend damped seasonal sp =
        .ok ⟨trend, damped, seasonal, sp⟩)
    ∧ (trend ∉ allowedComponentValues →
      mkHoltWintersParams trend damped seasonal sp = .error trendErrorMsg)
    ∧ (trend ∈ allowedComponentValues → seasonal ∉ allowedComponentValues →
      mkHoltWintersParams trend damped seasonal sp = .error seasonalErrorMsg)
    ∧ trendErrorMsg.data.take 5 = "trend".data
    ∧ seasonalErrorMsg.data.take 8 = "seasonal".data := by
  refine ⟨?_, ?_, ?_, rfl, rfl⟩
  · intro h1 h2
    simp only [mkHoltWintersParams, HoltWintersParams.validate_params]
    rw [if_neg (fun hc => hc h1), if_neg (fun hc => hc h2)]
  · intro h1
    simp only [mkHoltWintersParams, HoltWintersParams.validate_params]
    rw [if_pos h1]
  · intro h1 h2
    simp only [mkHoltWintersParams, HoltWintersParams.validate_params]
    rw [if_neg (fun hc => hc h1), if_pos h2]

/-- C1 witness: an invalid `trend` and an invalid `seasonal` are rejected
with the respective messages; a fully allowed choice succeeds. -/
theorem holtwinters_c1_witness :
    mkHoltWintersParams (some "add") false none none =
      .ok ⟨some "add", false, none, none⟩
    ∧ mkHoltWintersParams (some "invalid") false none none = .error trendErrorMsg
    ∧ mkHoltWintersParams (some "add") false (some "invalid") none =
      .error seasonalErrorMsg :=
  ⟨(holtwinters_c1_param_validation (some "add") none false none).1
      (by decide) (by decide),
   (holtwinters_c1_param_validation (some "invalid") none false none).2.1
      (by decide),
   (holtwinters_c1_param_validation (some "add") (some "invalid") false none).2.2.1
      (by decide) (by decide)⟩

/-- C2: on an orchestrator whose fitted handle is `None`, `predict` fails
immediately with the `"Call fit() before predict()"` sequencing error, for
any arguments; no state is returned, so the cached forecast state is left
exactly as it was. -/
theorem holtwinters_c2_predict_before_fit
    (eciImpl : EmpConfidenceInt → Nat → DataFrame) (s : HoltWintersModelState)
    (steps : Nat) (ih : Bool) (args : PredictArgs)
    (h : s.model = none) :
    HoltWintersModelPredict eciImpl s steps ih args = .error sequencingErrorMsg := by
  unfold HoltWintersModelPredict
  rw [h]

/-- C2 witness: the freshly constructed orchestrator over `exData` has no
fitted handle and `predict` raises the sequencing error on it. -/
theorem holtwinters_c2_witness :
    exUnfitted.model = none ∧
    HoltWintersModelPredict dummyEci exUnfitted 3 false {} =
      .error sequencingErrorMsg :=
  ⟨rfl, holtwinters_c2_predict_before_fit dummyEci exUnfitted 3 false {} rfl⟩

/-- C5: constructing the orchestrator on a series whose value column is a
multi-column table fails with the type error naming the received shape and
produces no object; on a univariate series it succeeds, storing exactly the
given series and parameters with all other fields at their class defaults. -/
theorem holtwinters_c5_univariate_check (data : TimeSeriesData)
    (params : HoltWintersParams) :
    ((∃ cols, data.value = .frame cols) →
      mkHoltWintersModel data params = .error (univariateErrorMsg data.value) ∧
      univariateErrorMsg data.value =
        "Only support univariate time series, but get "
          ++ data.value.pythonTypeName ++ ".")
    ∧ (∀ vals, data.value = .series vals →
      mkHoltWintersModel data params =
        .ok ⟨data, params, none, none, none, false, none, none, none⟩) := by
  constructor
  · rintro ⟨cols, hc⟩
    refine ⟨?_, rfl⟩
    unfold mkHoltWintersModel
    rw [hc]
  · intro vals hv
    unfold mkHoltWintersModel
    rw [hv]

/-- C5 witness: a two-column table is rejected with the DataFrame-shaped
message; the univariate `exData` is accepted and stored unchanged. -/
theorem holtwinters_c5_witness :
    exMultiData.value = .frame [[1, 2], [3, 4]] ∧
    mkHoltWintersModel exMultiData exParams =
      .error (univariateErrorMsg exMultiData.value) ∧
    mkHoltWintersModel exData exParams =
      .ok ⟨exData, exParams, none, none, none, false, none, none, none⟩ :=
  ⟨rfl,
   ((holtwinters_c5_univariate_check exMultiData exParams).1 ⟨[[1, 2], [3, 4]], rfl⟩).1,
   (holtwinters_c5_univariate_check exData exParams).2 [10, 12, 14] rfl⟩

/-- C7: on a fitted orchestrator, two `predict` calls with `alpha` supplied
that differ only in the caller-provided `multi` keyword produce identical
results (state and table), and the CI estimator is constructed with
`multi = false` either way. -/
theorem holtwinters_c7_multi_ignored
    (eciImpl : EmpConfidenceInt → Nat → DataFrame) (s : HoltWintersModelState)
    (model : HoltWintersResults) (steps : Nat) (ih : Bool) (args : PredictArgs)
    (alpha : ℚ) (m1 m2 : Option Bool)
    (hm : s.model = some model) (halpha : args.alpha = some alpha) :
    HoltWintersModelPredict eciImpl s steps ih { args with multi := m1 } =
      HoltWintersModelPredict eciImpl s steps ih { args with multi := m2 }
    ∧ (eciOf s { args with multi := m1 } alpha).multi = false :=
  ⟨rfl, rfl⟩

/-- C7 witness: concrete fitted state, `alpha = 1/20`, caller `multi` set to
`true` in one call and `false` in the other. -/
theorem holtwinters_c7_witness :
    exFitted.model = some exHandle ∧
    argsAlpha.alpha = some (1/20) ∧
    (HoltWintersModelPredict dummyEci exFitted 2 false
        { argsAlpha with multi := some true } =
      HoltWintersModelPredict dummyEci exFitted 2 false
        { argsAlpha with multi := some false })
    ∧ (eciOf exFitted { argsAlpha with multi := some true } (1/20)).multi = false :=
  ⟨rfl, rfl,
   (holtwinters_c7_multi_ignored dummyEci exFitted exHandle 2 false argsAlpha
      (1/20) (some true) (some false) rfl rfl).1,
   (holtwinters_c7_multi_ignored dummyEci exFitted exHandle 2 false argsAlpha
      (1/20) (some true) (some false) rfl rfl).2⟩

/-- C8: `fit` always stores the handle freshly computed by the solver from
the stored value column and parameter object, discarding any prior handle;
hence fitting twice equals fitting once (the solver is a pure function, i.e.
deterministic), and any subsequent `predict` returns the same result. -/
theorem holtwinters_c8_fit_idempotent
    (solve : TSValue → HoltWintersParams → HoltWintersResults)
    (s : HoltWintersModelState) :
    HoltWintersModelFit solve (HoltWintersModelFit solve s) =
      HoltWintersModelFit solve s
    ∧ (HoltWintersModelFit solve s).model = some (solve s.data.value s.params)
    ∧ ∀ (eciImpl : EmpConfidenceInt → Nat → DataFrame) (steps : Nat) (ih : Bool)
        (args : PredictArgs),
        HoltWintersModelPredict eciImpl
            (HoltWintersModelFit solve (HoltWintersModelFit solve s)) steps ih args =
          HoltWintersModelPredict eciImpl (HoltWintersModelFit solve s) steps ih args :=
  ⟨rfl, rfl, fun _ _ _ _ => rfl⟩

/-- C10: no sequence of `fit` and `predict` calls ever changes the stored
input series or the stored parameter object. -/
theorem holtwinters_c10_no_mutation
    (solve : TSValue → HoltWintersParams → HoltWintersResults)
    (eciImpl : EmpConfidenceInt → Nat → DataFrame)
    (ops : List ModelOp) (s : HoltWintersModelState) :
    (runOps solve eciImpl s ops).data = s.data ∧
    (runOps solve eciImpl s ops).params = s.params := by
  induction ops generalizing s with
  | nil => exact ⟨rfl, rfl⟩
  | cons op rest ih2 =>
    have h1 := stepOp_data_params solve eciImpl s op
    have h2 := ih2 (stepOp solve eciImpl s op)
    exact ⟨h2.1.trans h1.1, h2.2.trans h1.2⟩

/-- C3: on a fitted orchestrator, `predict(steps)` without `alpha` builds the
`steps+1`-period date range from the last observed timestamp, drops the entry
equal to that timestamp, and returns exactly `steps` rows pairing the i-th
solver forecast value with the i-th remaining timestamp, each strictly later
than the last observed timestamp. -/
theorem holtwinters_c3_forecast_rows
    (eciImpl : EmpConfidenceInt → Nat → DataFrame) (s : HoltWintersModelState)
    (model : HoltWintersResults) (steps : Nat) (args : PredictArgs)
    (rf : Option Nat)
    (hm : s.model = some model)
    (hsteps : 0 < steps)
    (halpha : args.alpha = none)
    (hrf : resolvedFreq args.freq s.data.time = .ok rf)
    (hf : 0 < rf.getD dailyFreq) :
    ∃ s2,
      HoltWintersModelPredict eciImpl s steps false args =
        .ok (s2, (List.range steps).map (fun i =>
          Row.mk (some (maxTime s.data.time + (i + 1) * rf.getD dailyFreq))
            (model.fcstAt i)))
      ∧ ((List.range steps).map (fun i =>
          Row.mk (some (maxTime s.data.time + (i + 1) * rf.getD dailyFreq))
            (model.fcstAt i))).length = steps
      ∧ ∀ i, i < steps →
          maxTime s.data.time < maxTime s.data.time + (i + 1) * rf.getD dailyFreq := by
  simp only [HoltWintersModelPredict, hm, hrf, halpha, Bool.false_eq_true,
    if_false]
  rw [filter_dateRange _ _ _ hf]
  unfold mkTimeFcstFrame
  rw [if_pos (by simp [HoltWintersResults.forecast])]
  unfold HoltWintersResults.forecast
  rw [zipWith_range_map]
  dsimp only
  refine ⟨_, rfl, by simp, ?_⟩
  intro i hi
  have hpos : 0 < (i + 1) * rf.getD dailyFreq := Nat.mul_pos (Nat.succ_pos i) hf
  omega

/-- C3 witness: `exFitted` over days `[0, 1, 2]` with two forecast steps. -/
theorem holtwinters_c3_witness :
    exFitted.model = some exHandle ∧
    resolvedFreq ({} : PredictArgs).freq exFitted.data.time = .ok (some 1) ∧
    (∃ s2,
      HoltWintersModelPredict dummyEci exFitted 2 false {} =
        .ok (s2, (List.range 2).map (fun i =>
          Row.mk (some (maxTime exFitted.data.time + (i + 1) * (some 1 : Option Nat).getD dailyFreq))
            (exHandle.fcstAt i)))
      ∧ ((List.range 2).map (fun i =>
          Row.mk (some (maxTime exFitted.data.time + (i + 1) * (some 1 : Option Nat).getD dailyFreq))
            (exHandle.fcstAt i))).length = 2
      ∧ ∀ i, i < 2 →
          maxTime exFitted.data.time <
            maxTime exFitted.data.time + (i + 1) * (some 1 : Option Nat).getD dailyFreq) :=
  ⟨rfl, rfl,
   holtwinters_c3_forecast_rows dummyEci exFitted exHandle 2 {} (some 1)
     rfl (by decide) rfl rfl (by decide)⟩

/-- C6: when `predict` is called with `alpha` and without the optional CI
keywords, the CI estimator is constructed with error metrics `["mape"]`,
train percentage 70, test percentage 10, sliding steps `len(data) // 5`, the
orchestrator's own class, and confidence level `1 - alpha`; the returned
table is exactly what that estimator produces. -/
theorem holtwinters_c6_eci_defaults
    (eciImpl : EmpConfidenceInt → Nat → DataFrame) (s : HoltWintersModelState)
    (model : HoltWintersResults) (steps : Nat) (args : PredictArgs) (alpha : ℚ)
    (rf : Option Nat)
    (hm : s.model = some model)
    (halpha : args.alpha = some alpha)
    (hem : args.error_methods = none)
    (htr : args.train_percentage = none)
    (hte : args.test_percentage = none)
    (hsl : args.sliding_steps = none)
    (hrf : resolvedFreq args.freq s.data.time = .ok rf) :
    eciOf s args alpha =
      ⟨["mape"], s.data, s.params, 70, 10, s.data.len / 5, "HoltWintersModel",
        1 - alpha, false⟩
    ∧ ∃ s2, HoltWintersModelPredict eciImpl s steps false args =
        .ok (s2, eciImpl (eciOf s args alpha) steps) := by
  constructor
  · unfold eciOf
    rw [hem, htr, hte, hsl]
    rfl
  · simp only [HoltWintersModelPredict, hm, hrf, halpha, Bool.false_eq_true,
      if_false]
    exact ⟨_, rfl⟩

/-- C6 witness: `exFitted` with `alpha = 1/20` and no other CI keywords. -/
theorem holtwinters_c6_witness :
    exFitted.model = some exHandle ∧
    argsAlpha.alpha = some (1/20) ∧
    argsAlpha.error_methods = none ∧
    argsAlpha.train_percentage = none ∧
    argsAlpha.test_percentage = none ∧
    argsAlpha.sliding_steps = none ∧
    resolvedFreq argsAlpha.freq exFitted.data.time = .ok (some 1) ∧
    (eciOf exFitted argsAlpha (1/20) =
      ⟨["mape"], exFitted.data, exFitted.params, 70, 10, exFitted.data.len / 5,
        "HoltWintersModel", 1 - 1/20, false⟩
    ∧ ∃ s2, HoltWintersModelPredict dummyEci exFitted 4 false argsAlpha =
        .ok (s2, dummyEci (eciOf exFitted argsAlpha (1/20)) 4)) :=
  ⟨rfl, rfl, rfl, rfl, rfl, rfl, rfl,
   holtwinters_c6_eci_defaults dummyEci exFitted exHandle 4 argsAlpha (1/20)
     (some 1) rfl rfl rfl rfl rfl rfl rfl⟩

/-- C4 counterexample: on the fitted 3-point daily series, `predict(steps=1,
include_history=true)` returns 5 rows, not `N + steps = 4`: the history block
`model.predict(start=0, end=len(self.data.time))` has `N+1` values
(statsmodels' `end` is inclusive), and pandas index alignment pads the `time`
column with a missing entry. -/
theorem holtwinters_c4_counterexample :
    (HoltWintersModelPredict dummyEci exFitted 1 true {}).map
        (fun p => p.2.length) = .ok 5
    ∧ exFitted.data.time.length + 1 = 4
    ∧ (4 : Nat) ≠ 5 :=
  ⟨rfl, rfl, by decide⟩

/-- C4 (amended): with `include_history=true` (no-CI path), `predict` returns
`N + 1 + steps` rows: the first `N` pair the original timestamps, in order,
with the solver's in-sample values; one extra row with a missing timestamp
carries the solver's prediction at index `N`; then come the `steps` future
rows. In particular the first `N` timestamps equal the original series'
timestamps exactly and in order. -/
theorem holtwinters_c4_include_history
    (eciImpl : EmpConfidenceInt → Nat → DataFrame) (s : HoltWintersModelState)
    (model : HoltWintersResults) (steps : Nat) (args : PredictArgs)
    (rf : Option Nat)
    (hm : s.model = some model)
    (halpha : args.alpha = none)
    (hrf : resolvedFreq args.freq s.data.time = .ok rf)
    (hf : 0 < rf.getD dailyFreq) :
    ∃ s2 df,
      HoltWintersModelPredict eciImpl s steps true args = .ok (s2, df)
      ∧ df = ((List.range s.data.time.length).map (fun i =>
            Row.mk s.data.time[i]? (model.fittedAt i))
          ++ [Row.mk none (model.fittedAt s.data.time.length)])
          ++ (List.range steps).map (fun i =>
            Row.mk (some (maxTime s.data.time + (i + 1) * rf.getD dailyFreq))
              (model.fcstAt i))
      ∧ df.length = s.data.time.length + 1 + steps
      ∧ (df.map Row.time).take s.data.time.length = s.data.time.map some := by
  simp only [HoltWintersModelPredict, hm, hrf, halpha, if_true]
  rw [filter_dateRange _ _ _ hf]
  unfold mkTimeFcstFrame
  rw [if_pos (by simp [HoltWintersResults.forecast])]
  dsimp only
  unfold HoltWintersResults.forecast
  rw [zipWith_range_map, predictRange_zero, alignFrame_range_map]
  refine ⟨_, _, rfl, rfl, ?_, ?_⟩
  · simp only [List.length_append, List.length_map, List.length_range,
      List.length_cons, List.length_nil]
  · rw [List.append_assoc, List.map_append]
    have hmm : ((List.range s.data.time.length).map (fun i =>
        Row.mk s.data.time[i]? (model.fittedAt i))).map Row.time =
        s.data.time.map some := by
      rw [List.map_map]
      have : (Row.time ∘ fun i => Row.mk s.data.time[i]? (model.fittedAt i)) =
          fun i => s.data.time[i]? := rfl
      rw [this, range_map_getElem?]
    rw [hmm]
    have hlen : (s.data.time.map some).length = s.data.time.length :=
      List.length_map _ _
    rw [← hlen, List.take_left]

/-- C4 amended-claim witness: the concrete 3-point series with one step. -/
theorem holtwinters_c4_witness :
    exFitted.model = some exHandle ∧
    resolvedFreq ({} : PredictArgs).freq exFitted.data.time = .ok (some 1) ∧
    (∃ s2 df,
      HoltWintersModelPredict dummyEci exFitted 1 true {} = .ok (s2, df)
      ∧ df = ((List.range exFitted.data.time.length).map (fun i =>
            Row.mk exFitted.data.time[i]? (exHandle.fittedAt i))
          ++ [Row.mk none (exHandle.fittedAt exFitted.data.time.length)])
          ++ (List.range 1).map (fun i =>
            Row.mk (some (maxTime exFitted.data.time +
                (i + 1) * (some 1 : Option Nat).getD dailyFreq))
              (exHandle.fcstAt i))
      ∧ df.length = exFitted.data.time.length + 1 + 1
      ∧ (df.map Row.time).take exFitted.data.time.length =
          exFitted.data.time.map some) :=
  ⟨rfl, rfl,
   holtwinters_c4_include_history dummyEci exFitted exHandle 1 {} (some 1)
     rfl rfl rfl (by decide)⟩

/-- C9 counterexample: a successful `predict` without `alpha` does NOT
overwrite the cached confidence level: starting from a state whose cached
`alpha` is `1/20`, the same call that leaves `alpha = none` on `exFitted`
leaves `1/20` in place — so not all four cached fields are overwritten by
every successful call. -/
theorem holtwinters_c9_counterexample :
    (HoltWintersModelPredict dummyEci exFitted 1 false {}).map
        (fun p => p.1.alpha) = .ok none
    ∧ (HoltWintersModelPredict dummyEci
          { exFitted with alpha := some (1/20) } 1 false {}).map
        (fun p => p.1.alpha) = .ok (some (1/20))
    ∧ some (1/20 : ℚ) ≠ none :=
  ⟨rfl, rfl, Option.some_ne_none _⟩

/-- C9 (amended): every successful `predict` overwrites the cached frequency,
date range and forecast table with freshly computed values; the cached
confidence level is overwritten exactly when `alpha` is supplied, and
otherwise retains its previous value. -/
theorem holtwinters_c9_cache_overwrite
    (eciImpl : EmpConfidenceInt → Nat → DataFrame)
    (s s2 : HoltWintersModelState) (steps : Nat) (ih : Bool)
    (args : PredictArgs) (df : DataFrame)
    (h : HoltWintersModelPredict eciImpl s steps ih args = .ok (s2, df)) :
    (∃ rf, resolvedFreq args.freq s.data.time = .ok rf ∧ s2.freq = rf ∧
      s2.dates = some ((dateRange (maxTime s.data.time) (steps + 1) rf).filter
        (fun d => d ≠ maxTime s.data.time)))
    ∧ s2.fcst_df = some df
    ∧ s2.alpha = (match args.alpha with | some a => some a | none => s.alpha) := by
  have hinv := HoltWintersModelPredict_ok_inv eciImpl s s2 steps ih args df h
  exact ⟨hinv.2.2.2.2.2.1, hinv.2.2.2.1, hinv.2.2.2.2.2.2⟩

/-- The state cached by `predict(steps=1)` on `exFitted`. -/
def c9State : HoltWintersModelState :=
  { data := exData, params := exParams, model := some exHandle,
    freq := some 1, dates := some [3], include_history := false,
    alpha := none, y_fcst := some [100], fcst_df := some [Row.mk (some 3) 100] }

/-- C9 amended-claim witness: concrete successful call on `exFitted`. -/
theorem holtwinters_c9_witness :
    HoltWintersModelPredict dummyEci exFitted 1 false {} =
      .ok (c9State, [Row.mk (some 3) 100])
    ∧ ((∃ rf, resolvedFreq ({} : PredictArgs).freq exFitted.data.time = .ok rf ∧
        c9State.freq = rf ∧
        c9State.dates = some ((dateRange (maxTime exFitted.data.time) (1 + 1) rf).filter
          (fun d => d ≠ maxTime exFitted.data.time)))
      ∧ c9State.fcst_df = some [Row.mk (some 3) 100]
      ∧ c9State.alpha = (match ({} : PredictArgs).alpha with
          | some a => some a
          | none => exFitted.alpha)) :=
  ⟨rfl,
   holtwinters_c9_cache_overwrite dummyEci exFitted c9State 1 false {}
     [Row.mk (some 3) 100] rfl⟩
